import Mathlib

/-!
Verification of the VM control core of the illusion-rs hypervisor
(`src/hypervisor/src/intel/vm.rs` and `src/uefi/src/virtualize.rs`).

The code under `vm.rs` is embedded shallowly: the collaborators it calls
(the assembly entry trampoline `launch_vm`, the VMREAD wrapper, and the
VMCS configurator routines of `Vmcs`) are passed in as explicit
environments, and every VMREAD / configurator invocation is recorded in a
trace so that ordering and "field was read" statements can be proved.
Machine integers are modelled as `Nat` with explicit truncation `% 2 ^ 32`
where the source casts to `u32`.

The enumerations `VmInstructionError` and `VmxBasicExitReason` live in
`vmerror.rs`, which is not part of the provided sources; they are modelled
from the spec (fixed finite sets of named codes defined by the VMX
architecture, consulted through a total `from_u32 : Nat → Option _`
classifier). Likewise the host-stack allocator used by
`virtualize_system` is modelled from the spec.
-/

/-- Modelled from the spec: the fixed, finite enumeration of basic VM-exit
reasons, "each mapped from a specific unsigned 32-bit code defined by the
VMX architecture" (the defining `vmerror.rs` is not among the provided
sources; the codes follow the Intel SDM basic exit-reason table). -/
inductive VmxBasicExitReason where
  | ExceptionOrNmi
  | ExternalInterrupt
  | TripleFault
  | InitSignal
  | StartupIpi
  | IoSystemManagementInterrupt
  | OtherSmiEvent
  | InterruptWindow
  | NmiWindow
  | TaskSwitch
  | Cpuid
  | Getsec
  | Hlt
  | Invd
  | Invlpg
  | Rdpmc
  | Rdtsc
  | Rsm
  | Vmcall
  | Vmclear
  | Vmlaunch
  | Vmptrld
  | Vmptrst
  | Vmread
  | Vmresume
  | Vmwrite
  | Vmxoff
  | Vmxon
  | ControlRegisterAccesses
  | MovDr
  | IoInstruction
  | Rdmsr
  | Wrmsr
  | VmEntryFailureInvalidGuestState
  | VmEntryFailureMsrLoading
  | Mwait
  | MonitorTrapFlag
  | MonitorInstruction
  | PauseInstruction
  | VmEntryFailureMachineCheckEvent
  | TprBelowThreshold
  | ApicAccess
  | VirtualizedEoi
  | AccessToGdtrOrIdtr
  | AccessToLdtrOrTr
  | EptViolation
  | EptMisconfiguration
  | Invept
  | Rdtscp
  | VmxPreemptionTimerExpired
  | Invvpid
  | WbinvdOrWbnoinvd
  | Xsetbv
  | ApicWrite
  | Rdrand
  | Invpcid
  | Vmfunc
  | Encls
  | Rdseed
  | PageModificationLogFull
  | Xsaves
  | Xrstors
  deriving DecidableEq, Repr

/-- The architectural 32-bit code of each basic exit reason. -/
def VmxBasicExitReason.toCode : VmxBasicExitReason → Nat
  | .ExceptionOrNmi => 0
  | .ExternalInterrupt => 1
  | .TripleFault => 2
  | .InitSignal => 3
  | .StartupIpi => 4
  | .IoSystemManagementInterrupt => 5
  | .OtherSmiEvent => 6
  | .InterruptWindow => 7
  | .NmiWindow => 8
  | .TaskSwitch => 9
  | .Cpuid => 10
  | .Getsec => 11
  | .Hlt => 12
  | .Invd => 13
  | .Invlpg => 14
  | .Rdpmc => 15
  | .Rdtsc => 16
  | .Rsm => 17
  | .Vmcall => 18
  | .Vmclear => 19
  | .Vmlaunch => 20
  | .Vmptrld => 21
  | .Vmptrst => 22
  | .Vmread => 23
  | .Vmresume => 24
  | .Vmwrite => 25
  | .Vmxoff => 26
  | .Vmxon => 27
  | .ControlRegisterAccesses => 28
  | .MovDr => 29
  | .IoInstruction => 30
  | .Rdmsr => 31
  | .Wrmsr => 32
  | .VmEntryFailureInvalidGuestState => 33
  | .VmEntryFailureMsrLoading => 34
  | .Mwait => 36
  | .MonitorTrapFlag => 37
  | .MonitorInstruction => 39
  | .PauseInstruction => 40
  | .VmEntryFailureMachineCheckEvent => 41
  | .TprBelowThreshold => 43
  | .ApicAccess => 44
  | .VirtualizedEoi => 45
  | .AccessToGdtrOrIdtr => 46
  | .AccessToLdtrOrTr => 47
  | .EptViolation => 48
  | .EptMisconfiguration => 49
  | .Invept => 50
  | .Rdtscp => 51
  | .VmxPreemptionTimerExpired => 52
  | .Invvpid => 53
  | .WbinvdOrWbnoinvd => 54
  | .Xsetbv => 55
  | .ApicWrite => 56
  | .Rdrand => 57
  | .Invpcid => 58
  | .Vmfunc => 59
  | .Encls => 60
  | .Rdseed => 61
  | .PageModificationLogFull => 62
  | .Xsaves => 63
  | .Xrstors => 64

/-- Modelled from the spec: total classification of a raw 32-bit exit-reason
code into the enumeration, `none` for a code outside it ("implement as a
lookup table or exhaustive match, never a partial function that can panic on
unmapped input"). -/
def VmxBasicExitReason.from_u32 : Nat → Option VmxBasicExitReason
  | 0 => some .ExceptionOrNmi
  | 1 => some .ExternalInterrupt
  | 2 => some .TripleFault
  | 3 => some .InitSignal
  | 4 => some .StartupIpi
  | 5 => some .IoSystemManagementInterrupt
  | 6 => some .OtherSmiEvent
  | 7 => some .InterruptWindow
  | 8 => some .NmiWindow
  | 9 => some .TaskSwitch
  | 10 => some .Cpuid
  | 11 => some .Getsec
  | 12 => some .Hlt
  | 13 => some .Invd
  | 14 => some .Invlpg
  | 15 => some .Rdpmc
  | 16 => some .Rdtsc
  | 17 => some .Rsm
  | 18 => some .Vmcall
  | 19 => some .Vmclear
  | 20 => some .Vmlaunch
  | 21 => some .Vmptrld
  | 22 => some .Vmptrst
  | 23 => some .Vmread
  | 24 => some .Vmresume
  | 25 => some .Vmwrite
  | 26 => some .Vmxoff
  | 27 => some .Vmxon
  | 28 => some .ControlRegisterAccesses
  | 29 => some .MovDr
  | 30 => some .IoInstruction
  | 31 => some .Rdmsr
  | 32 => some .Wrmsr
  | 33 => some .VmEntryFailureInvalidGuestState
  | 34 => some .VmEntryFailureMsrLoading
  | 36 => some .Mwait
  | 37 => some .MonitorTrapFlag
  | 39 => some .MonitorInstruction
  | 40 => some .PauseInstruction
  | 41 => some .VmEntryFailureMachineCheckEvent
  | 43 => some .TprBelowThreshold
  | 44 => some .ApicAccess
  | 45 => some .VirtualizedEoi
  | 46 => some .AccessToGdtrOrIdtr
  | 47 => some .AccessToLdtrOrTr
  | 48 => some .EptViolation
  | 49 => some .EptMisconfiguration
  | 50 => some .Invept
  | 51 => some .Rdtscp
  | 52 => some .VmxPreemptionTimerExpired
  | 53 => some .Invvpid
  | 54 => some .WbinvdOrWbnoinvd
  | 55 => some .Xsetbv
  | 56 => some .ApicWrite
  | 57 => some .Rdrand
  | 58 => some .Invpcid
  | 59 => some .Vmfunc
  | 60 => some .Encls
  | 61 => some .Rdseed
  | 62 => some .PageModificationLogFull
  | 63 => some .Xsaves
  | 64 => some .Xrstors
  | _ => none

/-- Modelled from the spec: the fixed, finite enumeration of VM-instruction
errors, "mapped from specific unsigned 32-bit codes defined by the VMX
architecture" (the defining `vmerror.rs` is not among the provided sources;
the codes follow Intel SDM section 31.4, VM instruction error numbers). -/
inductive VmInstructionError where
  | VmcallInVmxRootOperation
  | VmclearInvalidAddress
  | VmclearWithVmxonPointer
  | VmlaunchNonClearVmcs
  | VmresumeNonLaunchedVmcs
  | VmresumeAfterVmxoff
  | VmentryInvalidControlFields
  | VmentryInvalidHostStateFields
  | VmptrldInvalidAddress
  | VmptrldWithVmxonPointer
  | VmptrldIncorrectVmcsRevisionId
  | VmreadVmwriteUnsupportedComponent
  | VmwriteReadOnlyComponent
  | VmxonInVmxRootOperation
  | VmentryInvalidExecutiveVmcsPointer
  | VmentryNonLaunchedExecutiveVmcs
  | VmentryExecutiveVmcsPtrNotVmxonPtr
  | VmcallNonClearVmcs
  | VmcallInvalidVmExitControlFields
  | VmcallIncorrectMsegRevisionId
  | VmxoffUnderDualMonitor
  | VmcallInvalidSmmMonitorFeatures
  | VmentryInvalidExecControlFieldsExecutiveVmcs
  | VmentryEventsBlockedByMovSs
  | InvalidOperandToInveptInvvpid
  deriving DecidableEq, Repr

/-- Modelled from the spec: classification of a raw 32-bit VM-instruction
error code; `none` for an unrecognized code (the spec distinguishes
recognized from unrecognized codes). -/
def VmInstructionError.from_u32 : Nat → Option VmInstructionError
  | 1 => some .VmcallInVmxRootOperation
  | 2 => some .VmclearInvalidAddress
  | 3 => some .VmclearWithVmxonPointer
  | 4 => some .VmlaunchNonClearVmcs
  | 5 => some .VmresumeNonLaunchedVmcs
  | 6 => some .VmresumeAfterVmxoff
  | 7 => some .VmentryInvalidControlFields
  | 8 => some .VmentryInvalidHostStateFields
  | 9 => some .VmptrldInvalidAddress
  | 10 => some .VmptrldWithVmxonPointer
  | 11 => some .VmptrldIncorrectVmcsRevisionId
  | 12 => some .VmreadVmwriteUnsupportedComponent
  | 13 => some .VmwriteReadOnlyComponent
  | 15 => some .VmxonInVmxRootOperation
  | 16 => some .VmentryInvalidExecutiveVmcsPointer
  | 17 => some .VmentryNonLaunchedExecutiveVmcs
  | 18 => some .VmentryExecutiveVmcsPtrNotVmxonPtr
  | 19 => some .VmcallNonClearVmcs
  | 20 => some .VmcallInvalidVmExitControlFields
  | 22 => some .VmcallIncorrectMsegRevisionId
  | 23 => some .VmxoffUnderDualMonitor
  | 24 => some .VmcallInvalidSmmMonitorFeatures
  | 25 => some .VmentryInvalidExecControlFieldsExecutiveVmcs
  | 26 => some .VmentryEventsBlockedByMovSs
  | 28 => some .InvalidOperandToInveptInvvpid
  | _ => none

/-- The error kinds `vm.rs` produces (the defining `error.rs` is external;
these are the variants the embedded code uses). -/
inductive HypervisorError where
  | VmInstructionError
  | UnknownVMInstructionError
  | VMFailToLaunch
  | UnknownVMExitReason
  deriving DecidableEq, Repr

/-- General-purpose register file of the guest (grouped into one record so
that "the run loop does not write any general-purpose register" is a single
equation; the source `GuestRegisters` lays the same fields out flat). -/
structure Gprs where
  rax : Nat
  rbx : Nat
  rcx : Nat
  rdx : Nat
  rsi : Nat
  rdi : Nat
  rbp : Nat
  r8 : Nat
  r9 : Nat
  r10 : Nat
  r11 : Nat
  r12 : Nat
  r13 : Nat
  r14 : Nat
  r15 : Nat
  deriving DecidableEq, Repr

/-- The guest register snapshot: general-purpose registers plus
RIP / RSP / RFLAGS (`capture.rs` is external; modelled from the spec
contract "a fixed-layout record of all general-purpose registers plus
RIP/RSP/RFLAGS"). -/
structure GuestRegisters where
  gprs : Gprs
  rip : Nat
  rsp : Nat
  rflags : Nat
  deriving DecidableEq, Repr

/-- VMCS field encoding `x86::vmx::vmcs::guest::RIP`. -/
def GUEST_RIP : Nat := 0x681E

/-- VMCS field encoding `x86::vmx::vmcs::guest::RSP`. -/
def GUEST_RSP : Nat := 0x681C

/-- VMCS field encoding `x86::vmx::vmcs::guest::RFLAGS`. -/
def GUEST_RFLAGS : Nat := 0x6820

/-- VMCS field encoding `x86::vmx::vmcs::ro::EXIT_REASON`. -/
def EXIT_REASON : Nat := 0x4402

/-- VMCS field encoding `x86::vmx::vmcs::ro::VM_INSTRUCTION_ERROR`. -/
def VM_INSTRUCTION_ERROR : Nat := 0x4400

/-- Mask of the carry flag, `x86::bits64::rflags::RFlags::FLAGS_CF` (bit 0). -/
def RFLAGS_CF : Nat := 1

/-- Mask of the zero flag, `x86::bits64::rflags::RFlags::FLAGS_ZF` (bit 6). -/
def RFLAGS_ZF : Nat := 64

/-- `RFlags.contains(mask)`: every bit of the mask is set in the flags. -/
def rflagsContains (flags mask : Nat) : Bool := flags &&& mask == mask

/-- Environment of collaborators for the run loop: the entry trampoline
`launch_vm` (given the snapshot and the 0/1 launched flag, yields the
snapshot rewritten with the post-exit general-purpose register values and
the post-execution RFLAGS value) and the VMREAD wrapper (field encoding to
64-bit value, the backing VMCS store). -/
structure Env where
  launch_vm : GuestRegisters → Nat → GuestRegisters × Nat
  vmread : Nat → Nat

/-- The VM control object `Vm` of `vm.rs`. Only the fields the embedded
code touches carry state here: the VMCS revision identifier (the one VMCS
datum `vm.rs` writes directly), the guest register snapshot, and the
launched flag. The remaining fields (descriptor tables, host paging, MSR
bitmap, shared-data pointer) are opaque collaborator state that `vm.rs`
only forwards, never reads or writes. -/
structure Vm where
  vmcs_revision_id : Nat
  guest_registers : GuestRegisters
  has_launched : Bool
  deriving DecidableEq, Repr

/-- `Vm::new`: clones the caller-supplied register snapshot and sets
`has_launched = false`. The VMCS region comes from `Vmcs::default()`
(external): its revision identifier is taken as a parameter. No VMX
instruction is issued. -/
def Vm.new (guest_registers : GuestRegisters) (initial_revision_id : Nat) : Vm :=
  { vmcs_revision_id := initial_revision_id
    guest_registers := guest_registers
    has_launched := false }

/-- `Vm::vm_succeed`: checks ZF first (instruction failure with a recorded
error code: VMREAD the VM-instruction-error field, truncate to `u32`,
classify), then CF (failure with no recorded code). Returns the result
paired with the list of VMREAD field encodings it performed. -/
def Vm.vm_succeed (env : Env) (flags : Nat) :
    Except HypervisorError Unit × List Nat :=
  if rflagsContains flags RFLAGS_ZF then
    match VmInstructionError.from_u32 (env.vmread VM_INSTRUCTION_ERROR % 2 ^ 32) with
    | some _ => (Except.error HypervisorError.VmInstructionError, [VM_INSTRUCTION_ERROR])
    | none => (Except.error HypervisorError.UnknownVMInstructionError, [VM_INSTRUCTION_ERROR])
  else if rflagsContains flags RFLAGS_CF then
    (Except.error HypervisorError.VMFailToLaunch, [])
  else
    (Except.ok (), [])

/-- Outcome of one `Vm::run` invocation: the returned value, the object
state it leaves behind, and the VMREAD field encodings performed, in
order. -/
structure RunOut where
  result : Except HypervisorError VmxBasicExitReason
  vm : Vm
  reads : List Nat
  deriving Repr

/-- Exit-reason classification tail of `Vm::run` (lines 120-127): the raw
code either matches the enumeration and is returned, or the
unknown-exit-reason error is returned; never a default. -/
def Vm.classify_exit (vmS : Vm) (reads : List Nat) (exit_reason : Nat) : RunOut :=
  match VmxBasicExitReason.from_u32 exit_reason with
  | none => { result := Except.error HypervisorError.UnknownVMExitReason, vm := vmS, reads := reads }
  | some r => { result := Except.ok r, vm := vmS, reads := reads }

/-- Tail of `Vm::run` after the trampoline has returned: verify success;
on failure propagate; on success set the launched flag, resynchronize
RIP/RSP/RFLAGS from the VMCS, read and classify the exit reason. -/
def Vm.run_after_entry (env : Env) (vmAfterEntry : Vm)
    (chk : Except HypervisorError Unit × List Nat) : RunOut :=
  match chk.1 with
  | Except.error e => { result := Except.error e, vm := vmAfterEntry, reads := chk.2 }
  | Except.ok _ =>
    let vmL : Vm := { vmAfterEntry with has_launched := true }
    let regs : GuestRegisters :=
      { vmL.guest_registers with
          rip := env.vmread GUEST_RIP
          rsp := env.vmread GUEST_RSP
          rflags := env.vmread GUEST_RFLAGS }
    let vmS : Vm := { vmL with guest_registers := regs }
    Vm.classify_exit vmS (chk.2 ++ [GUEST_RIP, GUEST_RSP, GUEST_RFLAGS, EXIT_REASON])
      (env.vmread EXIT_REASON % 2 ^ 32)

/-- `Vm::run`: invoke the trampoline with the snapshot and
`u64::from(has_launched)` (the trampoline writes the post-exit
general-purpose values into the snapshot and returns the flags), then the
verification / resynchronize / classify tail. -/
def Vm.run (env : Env) (vm : Vm) : RunOut :=
  Vm.run_after_entry env
    { vm with guest_registers := (env.launch_vm vm.guest_registers (if vm.has_launched then 1 else 0)).1 }
    (Vm.vm_succeed env (env.launch_vm vm.guest_registers (if vm.has_launched then 1 else 0)).2)

/-- Events recorded by the activation / setup spy: the revision-identifier
bit-31 clear, the two VMX instructions, and the three Configurator
invocations. -/
inductive VmxEvent where
  | clearRevisionBit31
  | vmclear
  | vmptrld
  | setupGuest
  | setupHost
  | setupControl
  deriving DecidableEq, Repr

/-- Results the external `Vmcs` configurator returns: host-state
programming and control-field programming may each fail
(`setup_guest_registers_state` is infallible in the source). -/
structure SetupEnv where
  setup_host_result : Except HypervisorError Unit
  setup_control_result : Except HypervisorError Unit

/-- `Vm::setup_vmcs`: invoke the Configurator in the fixed order
guest-state, host-state, control fields; the `?` operator stops at the
first failure. Returns the result paired with the recorded invocations. -/
def Vm.setup_vmcs (env : SetupEnv) : Except HypervisorError Unit × List VmxEvent :=
  match env.setup_host_result with
  | Except.error e => (Except.error e, [VmxEvent.setupGuest, VmxEvent.setupHost])
  | Except.ok _ =>
    match env.setup_control_result with
    | Except.error e =>
      (Except.error e, [VmxEvent.setupGuest, VmxEvent.setupHost, VmxEvent.setupControl])
    | Except.ok _ =>
      (Except.ok (), [VmxEvent.setupGuest, VmxEvent.setupHost, VmxEvent.setupControl])

/-- Outcome of `Vm::activate_vmcs`: result, the updated object, and the
recorded event trace. -/
structure ActOut where
  result : Except HypervisorError Unit
  vm : Vm
  events : List VmxEvent

/-- `Vm::activate_vmcs`: clear bit 31 of the (32-bit) VMCS revision
identifier, issue VMCLEAR then VMPTRLD on the region, then invoke VMCS
setup; the only fallible step is setup, whose error is propagated by `?`. -/
def Vm.activate_vmcs (env : SetupEnv) (vm : Vm) : ActOut :=
  { result := (Vm.setup_vmcs env).1
    vm := { vm with vmcs_revision_id := vm.vmcs_revision_id &&& 0x7FFFFFFF }
    events := VmxEvent.clearRevisionBit31 :: VmxEvent.vmclear :: VmxEvent.vmptrld ::
      (Vm.setup_vmcs env).2 }

/-- Outcome of `virtualize_system`: the routine has no normal return — it
either aborts (fatal allocation failure) or transfers control, with the
snapshot pointer carried along, to the landing code with RSP set to the
new stack (the `switch_stack` assembly: `mov rsp, r8` then `jmp rdx`). -/
inductive LaunchOutcome where
  | abort
  | transfer (guest_registers : GuestRegisters) (landing_code : Nat) (rsp : Nat)
  deriving DecidableEq, Repr

/-- `switch_stack` (the `global_asm!` trampoline): set RSP to the new host
stack and jump to the landing code, never returning. -/
def switch_stack (guest_registers : GuestRegisters) (landing_code host_stack : Nat) :
    LaunchOutcome :=
  LaunchOutcome.transfer guest_registers landing_code host_stack

/-- `virtualize_system`: allocate the dedicated host stack, then switch
stacks into the hypervisor entry routine. Modelled from the spec for the
allocator (`allocate_host_stack` lives outside the provided sources):
"Allocation failure here is fatal and must abort the virtualization
attempt", so a failed allocation (`none`) aborts instead of transferring
control or returning an error. -/
def virtualize_system (guest_registers : GuestRegisters) (start_hypervisor : Nat)
    (alloc : Option Nat) : LaunchOutcome :=
  match alloc with
  | none => LaunchOutcome.abort
  | some host_stack => switch_stack guest_registers start_hypervisor host_stack

/-- Concrete zero general-purpose register file, for witnesses. -/
def gprs0 : Gprs :=
  { rax := 0, rbx := 0, rcx := 0, rdx := 0, rsi := 0, rdi := 0, rbp := 0
    r8 := 0, r9 := 0, r10 := 0, r11 := 0, r12 := 0, r13 := 0, r14 := 0, r15 := 0 }

/-- Concrete guest register snapshot, for witnesses. -/
def regs0 : GuestRegisters := { gprs := gprs0, rip := 0x1000, rsp := 0x2000, rflags := 2 }

/-- Concrete VM control object fresh from construction, for witnesses. -/
def vm0 : Vm := Vm.new regs0 0

/-- Environment whose trampoline reports success (flags 0) and whose VMCS
store returns 0 everywhere (exit reason 0, exception or NMI). -/
def env0 : Env := { launch_vm := fun r _ => (r, 0), vmread := fun _ => 0 }

/-- Environment whose trampoline reports failure with ZF set and whose
VM-instruction-error field holds the unrecognized code 999. -/
def envZF : Env := { launch_vm := fun r _ => (r, RFLAGS_ZF), vmread := fun _ => 999 }

/-- Environment whose trampoline reports failure with CF set and ZF
clear (flags 1). -/
def envCF : Env := { launch_vm := fun r _ => (r, RFLAGS_CF), vmread := fun _ => 0 }

/-- Environment whose trampoline reports success but whose exit-reason
field holds the unclassifiable code 0xFFFFFFFF. -/
def envUnknown : Env :=
  { launch_vm := fun r _ => (r, 0)
    vmread := fun f => if f == EXIT_REASON then 0xFFFFFFFF else 0 }

/-- Setup environment in which every configurator step succeeds. -/
def setupEnvOk : SetupEnv :=
  { setup_host_result := Except.ok (), setup_control_result := Except.ok () }

/-- Setup environment in which host-state programming fails. -/
def setupEnvHostFail : SetupEnv :=
  { setup_host_result := Except.error HypervisorError.VMFailToLaunch
    setup_control_result := Except.ok () }

/-- Branch lemma: with ZF set, `vm_succeed` consults the instruction-error
field and classifies it. -/
theorem vm_succeed_of_zf (env : Env) (flags : Nat)
    (h : rflagsContains flags RFLAGS_ZF = true) :
    Vm.vm_succeed env flags =
      match VmInstructionError.from_u32 (env.vmread VM_INSTRUCTION_ERROR % 2 ^ 32) with
      | some _ => (Except.error HypervisorError.VmInstructionError, [VM_INSTRUCTION_ERROR])
      | none => (Except.error HypervisorError.UnknownVMInstructionError, [VM_INSTRUCTION_ERROR]) := by
  unfold Vm.vm_succeed
  simp [h]

/-- Branch lemma: with ZF clear and CF set, `vm_succeed` fails with the
no-recorded-error kind and performs no VMREAD. -/
theorem vm_succeed_of_cf (env : Env) (flags : Nat)
    (hz : rflagsContains flags RFLAGS_ZF = false)
    (hc : rflagsContains flags RFLAGS_CF = true) :
    Vm.vm_succeed env flags = (Except.error HypervisorError.VMFailToLaunch, []) := by
  unfold Vm.vm_succeed
  simp [hz, hc]

/-- Branch lemma: with both flags clear, `vm_succeed` succeeds and
performs no VMREAD. -/
theorem vm_succeed_of_clear (env : Env) (flags : Nat)
    (hz : rflagsContains flags RFLAGS_ZF = false)
    (hc : rflagsContains flags RFLAGS_CF = false) :
    Vm.vm_succeed env flags = (Except.ok (), []) := by
  unfold Vm.vm_succeed
  simp [hz, hc]

/-- The result of `vm_succeed` is one of four fixed values; in particular
it is never the unknown-exit-reason error. -/
theorem vm_succeed_kinds (env : Env) (flags : Nat) :
    (Vm.vm_succeed env flags).1 = Except.ok ()
  ∨ (Vm.vm_succeed env flags).1 = Except.error HypervisorError.VmInstructionError
  ∨ (Vm.vm_succeed env flags).1 = Except.error HypervisorError.UnknownVMInstructionError
  ∨ (Vm.vm_succeed env flags).1 = Except.error HypervisorError.VMFailToLaunch := by
  unfold Vm.vm_succeed
  split
  · split <;> simp
  · split <;> simp

/-- The VMREAD trace of `vm_succeed` is empty or the single
instruction-error read. -/
theorem vm_succeed_reads (env : Env) (flags : Nat) :
    (Vm.vm_succeed env flags).2 = [] ∨ (Vm.vm_succeed env flags).2 = [VM_INSTRUCTION_ERROR] := by
  unfold Vm.vm_succeed
  split
  · split <;> simp
  · split <;> simp

/-- Unfolding lemma: when verification fails, the run tail propagates the
error, leaves the object as the trampoline left it, and performs no
further VMREAD. -/
theorem run_after_entry_of_error (env : Env) (vmA : Vm)
    (chk : Except HypervisorError Unit × List Nat) (e : HypervisorError)
    (h : chk.1 = Except.error e) :
    Vm.run_after_entry env vmA chk =
      { result := Except.error e, vm := vmA, reads := chk.2 } := by
  unfold Vm.run_after_entry
  rw [h]

/-- Unfolding lemma: when verification passes, the run tail sets the
launched flag, resynchronizes RIP/RSP/RFLAGS from the VMCS, and
classifies the truncated exit-reason field. -/
theorem run_after_entry_of_ok (env : Env) (vmA : Vm)
    (chk : Except HypervisorError Unit × List Nat)
    (h : chk.1 = Except.ok ()) :
    Vm.run_after_entry env vmA chk =
      Vm.classify_exit
        { vmA with
            has_launched := true
            guest_registers :=
              { vmA.guest_registers with
                  rip := env.vmread GUEST_RIP
                  rsp := env.vmread GUEST_RSP
                  rflags := env.vmread GUEST_RFLAGS } }
        (chk.2 ++ [GUEST_RIP, GUEST_RSP, GUEST_RFLAGS, EXIT_REASON])
        (env.vmread EXIT_REASON % 2 ^ 32) := by
  unfold Vm.run_after_entry
  rw [h]

/-- Unfolding lemma: a recognized exit code is returned as its named
reason. -/
theorem classify_exit_of_some (vmS : Vm) (reads : List Nat) (code : Nat)
    (r : VmxBasicExitReason) (h : VmxBasicExitReason.from_u32 code = some r) :
    Vm.classify_exit vmS reads code =
      { result := Except.ok r, vm := vmS, reads := reads } := by
  unfold Vm.classify_exit
  rw [h]

/-- Unfolding lemma: an unrecognized exit code yields the
unknown-exit-reason error. -/
theorem classify_exit_of_none (vmS : Vm) (reads : List Nat) (code : Nat)
    (h : VmxBasicExitReason.from_u32 code = none) :
    Vm.classify_exit vmS reads code =
      { result := Except.error HypervisorError.UnknownVMExitReason, vm := vmS, reads := reads } := by
  unfold Vm.classify_exit
  rw [h]

/-- Whatever the code, `classify_exit` leaves the object and the trace it
was given unchanged. -/
theorem classify_exit_vm_reads (vmS : Vm) (reads : List Nat) (code : Nat) :
    (Vm.classify_exit vmS reads code).vm = vmS ∧ (Vm.classify_exit vmS reads code).reads = reads := by
  unfold Vm.classify_exit
  split <;> simp

/-- Claim C2: for every 64-bit flags input with the zero flag set, success
verification reads the 32-bit VM-instruction-error field and returns an
error — a recognized code yields the named-error kind, an unrecognized
code yields the distinct unrecognized-error kind, never success, and the
two error kinds are distinguishable. -/
theorem claim_C2_zf_error_classification (env : Env) (flags : Nat)
    (hw : flags < 2 ^ 64) (hz : rflagsContains flags RFLAGS_ZF = true) :
    (Vm.vm_succeed env flags).2 = [VM_INSTRUCTION_ERROR]
  ∧ (∀ e, VmInstructionError.from_u32 (env.vmread VM_INSTRUCTION_ERROR % 2 ^ 32) = some e →
      (Vm.vm_succeed env flags).1 = Except.error HypervisorError.VmInstructionError)
  ∧ (VmInstructionError.from_u32 (env.vmread VM_INSTRUCTION_ERROR % 2 ^ 32) = none →
      (Vm.vm_succeed env flags).1 = Except.error HypervisorError.UnknownVMInstructionError)
  ∧ (Vm.vm_succeed env flags).1 ≠ Except.ok ()
  ∧ HypervisorError.VmInstructionError ≠ HypervisorError.UnknownVMInstructionError := by
  rw [vm_succeed_of_zf env flags hz]
  cases hcode : VmInstructionError.from_u32 (env.vmread VM_INSTRUCTION_ERROR % 2 ^ 32) <;>
    simp [hcode]

/-- Witness for C2 at a concrete input: flags 64 (ZF set) against the
environment whose instruction-error field holds the unrecognized code
999. -/
theorem claim_C2_zf_error_classification_witness :
    (Vm.vm_succeed envZF 64).1 = Except.error HypervisorError.UnknownVMInstructionError :=
  (claim_C2_zf_error_classification envZF 64 (by decide) (by decide)).2.2.1 (by decide)

/-- Claim C3: success verification succeeds iff neither the zero flag nor
the carry flag is set; with CF set and ZF clear it returns the
no-recorded-error kind whatever the instruction-error field holds; and the
zero flag is checked before the carry flag (a ZF input never produces the
carry-branch error). -/
theorem claim_C3_vm_succeed_flag_protocol (env env2 : Env) (flags : Nat)
    (hw : flags < 2 ^ 64) :
    ((Vm.vm_succeed env flags).1 = Except.ok () ↔
      rflagsContains flags RFLAGS_ZF = false ∧ rflagsContains flags RFLAGS_CF = false)
  ∧ (rflagsContains flags RFLAGS_ZF = false → rflagsContains flags RFLAGS_CF = true →
      (Vm.vm_succeed env flags).1 = Except.error HypervisorError.VMFailToLaunch)
  ∧ (rflagsContains flags RFLAGS_ZF = false → rflagsContains flags RFLAGS_CF = true →
      (Vm.vm_succeed env flags).1 = (Vm.vm_succeed env2 flags).1)
  ∧ (rflagsContains flags RFLAGS_ZF = true →
      (Vm.vm_succeed env flags).1 ≠ Except.error HypervisorError.VMFailToLaunch) := by
  refine ⟨?_, ?_, ?_, ?_⟩
  · cases hz : rflagsContains flags RFLAGS_ZF
    · cases hc : rflagsContains flags RFLAGS_CF
      · rw [vm_succeed_of_clear env flags hz hc]; simp
      · rw [vm_succeed_of_cf env flags hz hc]; simp
    · rw [vm_succeed_of_zf env flags hz]
      cases hcode : VmInstructionError.from_u32 (env.vmread VM_INSTRUCTION_ERROR % 2 ^ 32) <;>
        simp [hcode, hz]
  · intro hz hc
    rw [vm_succeed_of_cf env flags hz hc]
  · intro hz hc
    rw [vm_succeed_of_cf env flags hz hc, vm_succeed_of_cf env2 flags hz hc]
  · intro hz
    rw [vm_succeed_of_zf env flags hz]
    cases hcode : VmInstructionError.from_u32 (env.vmread VM_INSTRUCTION_ERROR % 2 ^ 32) <;>
      simp [hcode]

/-- Witness for C3 at a concrete input: flags 1 (CF set, ZF clear) yields
the no-recorded-error kind. -/
theorem claim_C3_vm_succeed_flag_protocol_witness :
    (Vm.vm_succeed env0 1).1 = Except.error HypervisorError.VMFailToLaunch :=
  (claim_C3_vm_succeed_flag_protocol env0 envZF 1 (by decide)).2.1 (by decide) (by decide)

/-- Claim C1: the launched flag is false immediately after construction,
is set to true by a run invocation exactly when its success verification
passes, keeps its prior value when verification fails, stays true once
true across every subsequent run, and is never reset by activation. -/
theorem claim_C1_launched_flag_lifecycle :
    (∀ (regs : GuestRegisters) (rev : Nat), (Vm.new regs rev).has_launched = false)
  ∧ (∀ (env : Env) (vm : Vm),
      (Vm.vm_succeed env (env.launch_vm vm.guest_registers (if vm.has_launched then 1 else 0)).2).1 =
        Except.ok () →
      (Vm.run env vm).vm.has_launched = true)
  ∧ (∀ (env : Env) (vm : Vm) (e : HypervisorError),
      (Vm.vm_succeed env (env.launch_vm vm.guest_registers (if vm.has_launched then 1 else 0)).2).1 =
        Except.error e →
      (Vm.run env vm).vm.has_launched = vm.has_launched)
  ∧ (∀ (env : Env) (vm : Vm), vm.has_launched = true → (Vm.run env vm).vm.has_launched = true)
  ∧ (∀ (senv : SetupEnv) (vm : Vm), (Vm.activate_vmcs senv vm).vm.has_launched = vm.has_launched) := by
  refine ⟨fun regs rev => rfl, ?_, ?_, ?_, fun senv vm => rfl⟩
  · intro env vm h
    unfold Vm.run
    rw [run_after_entry_of_ok env _ _ h, (classify_exit_vm_reads _ _ _).1]
  · intro env vm e h
    unfold Vm.run
    rw [run_after_entry_of_error env _ _ e h]
  · intro env vm h
    rcases vm_succeed_kinds env (env.launch_vm vm.guest_registers (if vm.has_launched then 1 else 0)).2 with
      hs | hs | hs | hs
    · unfold Vm.run
      rw [run_after_entry_of_ok env _ _ hs, (classify_exit_vm_reads _ _ _).1]
    all_goals
      unfold Vm.run
      rw [run_after_entry_of_error env _ _ _ hs]
      exact h

/-- Witness for C1 at a concrete input: the fresh object launches after a
run whose verification passes. -/
theorem claim_C1_launched_flag_lifecycle_witness :
    (Vm.run env0 vm0).vm.has_launched = true :=
  claim_C1_launched_flag_lifecycle.2.1 env0 vm0 (by rfl)

/-- Claim C4: when success verification fails for the flags the trampoline
returned, run propagates exactly that error, the launched flag and the
revision identifier keep their prior values, the snapshot is exactly what
the trampoline wrote (no RIP/RSP/RFLAGS resynchronization), and neither
the guest RIP/RSP/RFLAGS fields nor the exit-reason field is read. -/
theorem claim_C4_verification_failure_stops_run (env : Env) (vm : Vm) (e : HypervisorError)
    (h : (Vm.vm_succeed env (env.launch_vm vm.guest_registers (if vm.has_launched then 1 else 0)).2).1 =
      Except.error e) :
    (Vm.run env vm).result = Except.error e
  ∧ (Vm.run env vm).vm.has_launched = vm.has_launched
  ∧ (Vm.run env vm).vm.guest_registers =
      (env.launch_vm vm.guest_registers (if vm.has_launched then 1 else 0)).1
  ∧ (Vm.run env vm).vm.vmcs_revision_id = vm.vmcs_revision_id
  ∧ (Vm.run env vm).reads =
      (Vm.vm_succeed env (env.launch_vm vm.guest_registers (if vm.has_launched then 1 else 0)).2).2
  ∧ GUEST_RIP ∉ (Vm.run env vm).reads
  ∧ GUEST_RSP ∉ (Vm.run env vm).reads
  ∧ GUEST_RFLAGS ∉ (Vm.run env vm).reads
  ∧ EXIT_REASON ∉ (Vm.run env vm).reads := by
  unfold Vm.run
  rw [run_after_entry_of_error env _ _ e h]
  refine ⟨rfl, rfl, rfl, rfl, rfl, ?_, ?_, ?_, ?_⟩
  all_goals
    rcases vm_succeed_reads env (env.launch_vm vm.guest_registers (if vm.has_launched then 1 else 0)).2 with
      hr | hr <;>
    · show _ ∉ (Vm.vm_succeed env (env.launch_vm vm.guest_registers (if vm.has_launched then 1 else 0)).2).2
      rw [hr]
      decide

/-- Witness for C4 at a concrete input: the CF-failure environment leaves
the fresh object unlaunched and propagates the no-recorded-error kind. -/
theorem claim_C4_verification_failure_stops_run_witness :
    (Vm.run envCF vm0).result = Except.error HypervisorError.VMFailToLaunch ∧
      (Vm.run envCF vm0).vm.has_launched = vm0.has_launched :=
  ⟨(claim_C4_verification_failure_stops_run envCF vm0 HypervisorError.VMFailToLaunch (by rfl)).1,
   (claim_C4_verification_failure_stops_run envCF vm0 HypervisorError.VMFailToLaunch (by rfl)).2.1⟩

/-- Claim C5: exit-reason classification is total over 32-bit codes —
every code of the enumeration maps back to exactly its named reason and
is returned by run as the successful result, while a code outside the
enumeration (such as 0xFFFFFFFF) yields the unknown-exit-reason error,
never a named reason and never a default. -/
theorem claim_C5_exit_reason_classification_total (env : Env) (vm : Vm) :
    (∀ r : VmxBasicExitReason, VmxBasicExitReason.from_u32 r.toCode = some r)
  ∧ VmxBasicExitReason.from_u32 0xFFFFFFFF = none
  ∧ (∀ r : VmxBasicExitReason,
      (Vm.vm_succeed env (env.launch_vm vm.guest_registers (if vm.has_launched then 1 else 0)).2).1 =
        Except.ok () →
      VmxBasicExitReason.from_u32 (env.vmread EXIT_REASON % 2 ^ 32) = some r →
      (Vm.run env vm).result = Except.ok r)
  ∧ ((Vm.vm_succeed env (env.launch_vm vm.guest_registers (if vm.has_launched then 1 else 0)).2).1 =
        Except.ok () →
      VmxBasicExitReason.from_u32 (env.vmread EXIT_REASON % 2 ^ 32) = none →
      (Vm.run env vm).result = Except.error HypervisorError.UnknownVMExitReason) := by
  refine ⟨?_, rfl, ?_, ?_⟩
  · intro r
    cases r <;> rfl
  · intro r hok hcode
    unfold Vm.run
    rw [run_after_entry_of_ok env _ _ hok, classify_exit_of_some _ _ _ r hcode]
  · intro hok hcode
    unfold Vm.run
    rw [run_after_entry_of_ok env _ _ hok, classify_exit_of_none _ _ _ hcode]

/-- Witness for C5 at a concrete input: exit code 0 is returned as the
exception-or-NMI reason. -/
theorem claim_C5_exit_reason_classification_total_witness :
    (Vm.run env0 vm0).result = Except.ok VmxBasicExitReason.ExceptionOrNmi :=
  (claim_C5_exit_reason_classification_total env0 vm0).2.2.1
    VmxBasicExitReason.ExceptionOrNmi (by rfl) (by rfl)

/-- Claim C6: after a run whose success verification passes, the snapshot
RIP, RSP and RFLAGS are exactly the values read back from the VMCS
guest-state encodings, and the general-purpose registers are exactly what
the trampoline wrote — run itself does not touch them. -/
theorem claim_C6_snapshot_resynchronized (env : Env) (vm : Vm)
    (h : (Vm.vm_succeed env (env.launch_vm vm.guest_registers (if vm.has_launched then 1 else 0)).2).1 =
      Except.ok ()) :
    (Vm.run env vm).vm.guest_registers.rip = env.vmread GUEST_RIP
  ∧ (Vm.run env vm).vm.guest_registers.rsp = env.vmread GUEST_RSP
  ∧ (Vm.run env vm).vm.guest_registers.rflags = env.vmread GUEST_RFLAGS
  ∧ (Vm.run env vm).vm.guest_registers.gprs =
      (env.launch_vm vm.guest_registers (if vm.has_launched then 1 else 0)).1.gprs := by
  unfold Vm.run
  rw [run_after_entry_of_ok env _ _ h, (classify_exit_vm_reads _ _ _).1]
  exact ⟨rfl, rfl, rfl, rfl⟩

/-- Witness for C6 at a concrete input: against the all-zero VMCS store the
snapshot fields come back zero. -/
theorem claim_C6_snapshot_resynchronized_witness :
    (Vm.run env0 vm0).vm.guest_registers.rip = env0.vmread GUEST_RIP :=
  (claim_C6_snapshot_resynchronized env0 vm0 (by rfl)).1

/-- Claim C10: a run that returns the unknown-exit-reason error has
nonetheless already mutated the object — the launched flag is true and
RIP/RSP/RFLAGS have been resynchronized from the VMCS. -/
theorem claim_C10_unknown_exit_after_mutation (env : Env) (vm : Vm)
    (h : (Vm.run env vm).result = Except.error HypervisorError.UnknownVMExitReason) :
    (Vm.run env vm).vm.has_launched = true
  ∧ (Vm.run env vm).vm.guest_registers.rip = env.vmread GUEST_RIP
  ∧ (Vm.run env vm).vm.guest_registers.rsp = env.vmread GUEST_RSP
  ∧ (Vm.run env vm).vm.guest_registers.rflags = env.vmread GUEST_RFLAGS := by
  rcases vm_succeed_kinds env (env.launch_vm vm.guest_registers (if vm.has_launched then 1 else 0)).2 with
    hs | hs | hs | hs
  · unfold Vm.run
    rw [run_after_entry_of_ok env _ _ hs, (classify_exit_vm_reads _ _ _).1]
    exact ⟨rfl, rfl, rfl, rfl⟩
  all_goals
    exfalso
    unfold Vm.run at h
    rw [run_after_entry_of_error env _ _ _ hs] at h
    simp at h

/-- Witness for C10 at a concrete input: the environment with exit code
0xFFFFFFFF produces the unknown-exit-reason error with the object
launched. -/
theorem claim_C10_unknown_exit_after_mutation_witness :
    (Vm.run envUnknown vm0).vm.has_launched = true :=
  (claim_C10_unknown_exit_after_mutation envUnknown vm0 (by rfl)).1

/-- Claim C7: activation clears bit 31 of the 32-bit revision identifier,
and its event trace is exactly that clear, then VMCLEAR, then VMPTRLD,
then the setup invocations — which are configurator events only, so setup
is never invoked before VMCLEAR and VMPTRLD have been issued on the
region; and activation returns an error exactly when setup does, with the
same error. -/
theorem claim_C7_activation_order (senv : SetupEnv) (vm : Vm) :
    (Vm.activate_vmcs senv vm).events =
      VmxEvent.clearRevisionBit31 :: VmxEvent.vmclear :: VmxEvent.vmptrld ::
        (Vm.setup_vmcs senv).2
  ∧ (∀ ev ∈ (Vm.setup_vmcs senv).2,
      ev = VmxEvent.setupGuest ∨ ev = VmxEvent.setupHost ∨ ev = VmxEvent.setupControl)
  ∧ ((Vm.activate_vmcs senv vm).result = Except.ok () ↔ (Vm.setup_vmcs senv).1 = Except.ok ())
  ∧ (∀ e, (Vm.activate_vmcs senv vm).result = Except.error e ↔
      (Vm.setup_vmcs senv).1 = Except.error e)
  ∧ (Vm.activate_vmcs senv vm).vm.vmcs_revision_id = vm.vmcs_revision_id &&& 0x7FFFFFFF := by
  refine ⟨rfl, ?_, Iff.rfl, fun e => Iff.rfl, rfl⟩
  unfold Vm.setup_vmcs
  split
  · simp
  · split <;> simp

/-- Witness for C7 at a concrete input: the host-state event of the
all-success setup environment is one of the three configurator events. -/
theorem claim_C7_activation_order_witness :
    VmxEvent.setupHost = VmxEvent.setupGuest ∨ VmxEvent.setupHost = VmxEvent.setupHost ∨
      VmxEvent.setupHost = VmxEvent.setupControl :=
  (claim_C7_activation_order setupEnvOk vm0).2.1 VmxEvent.setupHost (by decide)

/-- Claim C8: setup invokes the configurator in the fixed order
guest-state, host-state, control fields; when host-state programming
fails, control-field programming is not invoked and the error is
propagated; when control-field programming fails its error is propagated;
and any setup failure propagates out of activation. -/
theorem claim_C8_setup_order_and_failure (senv : SetupEnv) :
    ((Vm.setup_vmcs senv).2 = [VmxEvent.setupGuest, VmxEvent.setupHost]
      ∨ (Vm.setup_vmcs senv).2 =
          [VmxEvent.setupGuest, VmxEvent.setupHost, VmxEvent.setupControl])
  ∧ (∀ e, senv.setup_host_result = Except.error e →
      (Vm.setup_vmcs senv).1 = Except.error e
      ∧ VmxEvent.setupControl ∉ (Vm.setup_vmcs senv).2)
  ∧ (∀ e, senv.setup_host_result = Except.ok () → senv.setup_control_result = Except.error e →
      (Vm.setup_vmcs senv).1 = Except.error e)
  ∧ (∀ (vm : Vm) e, (Vm.setup_vmcs senv).1 = Except.error e →
      (Vm.activate_vmcs senv vm).result = Except.error e) := by
  refine ⟨?_, ?_, ?_, fun vm e h => h⟩
  · unfold Vm.setup_vmcs
    split
    · simp
    · split <;> simp
  · intro e he
    unfold Vm.setup_vmcs
    rw [he]
    refine ⟨rfl, ?_⟩
    show VmxEvent.setupControl ∉ [VmxEvent.setupGuest, VmxEvent.setupHost]
    decide
  · intro e hh hc
    unfold Vm.setup_vmcs
    rw [hh, hc]

/-- Witness for C8 at a concrete input: a failing host-state step makes
activation fail with that error. -/
theorem claim_C8_setup_order_and_failure_witness :
    (Vm.activate_vmcs setupEnvHostFail vm0).result = Except.error HypervisorError.VMFailToLaunch :=
  (claim_C8_setup_order_and_failure setupEnvHostFail).2.2.2 vm0 HypervisorError.VMFailToLaunch
    (by rfl)

/-- Claim C9: the launch trampoline has no normal return — for every
allocation outcome it either aborts or transfers control; on a successful
allocation it performs the stack switch into the hypervisor entry routine
with RSP set to the new stack and the snapshot carried along, and on a
failed allocation it aborts instead of transferring control or returning
an error. -/
theorem claim_C9_trampoline_diverges (regs : GuestRegisters) (start_hypervisor : Nat)
    (alloc : Option Nat) :
    (virtualize_system regs start_hypervisor alloc = LaunchOutcome.abort
      ∨ ∃ addr, alloc = some addr ∧
          virtualize_system regs start_hypervisor alloc =
            LaunchOutcome.transfer regs start_hypervisor addr)
  ∧ (alloc = none → virtualize_system regs start_hypervisor alloc = LaunchOutcome.abort)
  ∧ (∀ addr, alloc = some addr →
      virtualize_system regs start_hypervisor alloc =
        switch_stack regs start_hypervisor addr) := by
  refine ⟨?_, ?_, ?_⟩
  · cases alloc with
    | none => exact Or.inl rfl
    | some addr => exact Or.inr ⟨addr, rfl, rfl⟩
  · intro h
    rw [h]
    rfl
  · intro addr h
    rw [h]
    rfl

/-- Witness for C9 at a concrete input: a successful allocation at
0x5000 transfers control via the stack switch. -/
theorem claim_C9_trampoline_diverges_witness :
    virtualize_system regs0 7 (some 0x5000) = switch_stack regs0 7 0x5000 :=
  (claim_C9_trampoline_diverges regs0 7 (some 0x5000)).2.2 0x5000 (by rfl)
